import Mathlib

set_option linter.unusedVariables false

/-!
Verification development for the EscrowBot deal lifecycle engine
(`src/app.py` and `src/admin_server.py`).

Modelling conventions:
* Monetary amounts are exact decimals in the source (`decimal.Decimal`); they are
  embedded as rationals (`ℚ`).  The `Deal.amount` column stores the decimal
  string; we embed the decimal value it denotes.
* Timestamps (`datetime`) are embedded as natural numbers (seconds); the only
  operations the engine performs on them are comparison and addition of a grace
  window.
* Statuses are the literal strings the source uses (`"FUNDED"`, `"RELEASED"`, …).
* Database nullability is `Option`; the seller sentinel `seller_id = 0` is kept
  as in the source.
* Fallible handlers return `OpResult`, an `Except`-style result type carrying
  the error taxonomy of the spec.
* `str.lower`/`str.strip` from Python are embedded as the structural functions
  `strLower`/`strStrip` below.
-/

/-- Embeds Python `str.lower` (character-wise lowercasing). -/
def strLower (s : String) : String := ⟨s.data.map Char.toLower⟩

/-- Embeds Python `str.strip` (drop whitespace from both ends). -/
def strStrip (s : String) : String :=
  ⟨((s.data.dropWhile Char.isWhitespace).reverse.dropWhile Char.isWhitespace).reverse⟩

/-- Error taxonomy of the spec (§7), as surfaced by the handlers in the source. -/
inductive EscrowError where
  | NotFound
  | Forbidden
  | InvalidState
  | MissingPayoutAddress
  | NonPositivePayout
  | InvalidSplit
  | UnknownAction
deriving DecidableEq

/-- Result of a fallible engine operation. -/
inductive OpResult (α : Type) where
  | ok : α → OpResult α
  | err : EscrowError → OpResult α
deriving DecidableEq

/-- The `deals` table row (`class Deal` in `src/app.py`).  `created_at` /
`updated_at` bookkeeping columns are omitted: no claim mentions them. -/
structure Deal where
  id : Nat
  buyer_id : Nat
  seller_id : Nat                      -- 0 = unbound sentinel
  seller_username : Option String      -- the "@tag" reference, pre-binding
  asset : String
  amount : ℚ                           -- value of the stored decimal string
  fee_bp : Int
  fee_min_cad_cents : Int
  fee_max_cad_cents : Int
  status : String
  pay_address : Option String
  confirmations : Nat
  required_confs : Nat
  hold_txid : Option String
  release_txid : Option String
  funded_at : Option Nat
  auto_finalise_at : Option Nat
  seller_payout_address : Option String
  buyer_refund_address : Option String
deriving DecidableEq

/-- The `disputes` table row (`class Dispute` in `src/app.py`). -/
structure Dispute where
  id : Nat
  deal_id : Nat
  opener_id : Nat
  reason : String
  status : String                      -- OPEN | RESOLVED | REVERSED
  loser_id : Option Nat
deriving DecidableEq

/-- Embedding of `cad_to_asset_units_stub` from `src/app.py` lines 149-151: the dev stub
returns 0, so only the percentage part of the fee applies in this build. -/
def cad_to_asset_units_stub (asset : String) (cad_cents : Int) : ℚ := 0

/-- The clamping core of `compute_service_fee_asset_units` (`src/app.py`
lines 153-162), with the two stub-converted bounds passed as parameters:
`fee_calc = amount_units * (fee_bp / 10000)`, raised to `min_units` when that
bound is positive and exceeded downward, lowered to `max_units` when that bound
is positive and exceeded upward. -/
def service_fee_clamped (amount_units : ℚ) (fee_bp : Int) (min_units max_units : ℚ) : ℚ :=
  let pct : ℚ := (fee_bp : ℚ) / 10000
  let fee_calc := amount_units * pct
  let fee_floored := if 0 < min_units ∧ fee_calc < min_units then min_units else fee_calc
  if 0 < max_units ∧ max_units < fee_floored then max_units else fee_floored

/-- Embedding of `compute_service_fee_asset_units` from `src/app.py` lines 153-162: the fee
for a deal, with the CAD bounds converted through the dev stub. -/
def compute_service_fee_asset_units (asset : String) (amount_units : ℚ) (d : Deal) : ℚ :=
  service_fee_clamped amount_units d.fee_bp
    (cad_to_asset_units_stub asset d.fee_min_cad_cents)
    (cad_to_asset_units_stub asset d.fee_max_cad_cents)

/-- The spec's description of the fee engine (§4.2), stated in its own words:
`ServiceFee(amount, feeBasisPoints, minBound, maxBound) =
clamp(amount × feeBasisPoints / 10000, minBound, maxBound)`, where a zero
bound is treated as "no bound" (not clamped).  This definition follows the
spec text, to be compared with `service_fee_clamped` from the source. -/
def serviceFeeSpec (amount : ℚ) (feeBasisPoints : Int) (minBound maxBound : ℚ) : ℚ :=
  let raw := amount * (feeBasisPoints : ℚ) / 10000
  let flooredAtMin := if minBound = 0 then raw else max raw minBound
  if maxBound = 0 then flooredAtMin else min flooredAtMin maxBound

/-- C6: the source fee computation equals the spec's clamp formula (for
non-negative bounds, which is what the CAD-cents stub can produce); with both
bounds nonzero (and the policy well-formed, `min ≤ max`) the result lies in
`[min, max]`; and for a fixed policy with non-negative basis points the fee is
monotonically non-decreasing in the amount. -/
theorem service_fee_clamp_bounds_monotone :
    (∀ (a : ℚ) (bp : Int) (lo hi : ℚ), 0 ≤ lo → 0 ≤ hi →
      service_fee_clamped a bp lo hi = serviceFeeSpec a bp lo hi)
    ∧ (∀ (a : ℚ) (bp : Int) (lo hi : ℚ), 0 < lo → 0 < hi → lo ≤ hi →
      lo ≤ service_fee_clamped a bp lo hi ∧ service_fee_clamped a bp lo hi ≤ hi)
    ∧ (∀ (a b : ℚ) (bp : Int) (lo hi : ℚ), 0 ≤ bp → a ≤ b →
      service_fee_clamped a bp lo hi ≤ service_fee_clamped b bp lo hi) := by
  refine ⟨?_, ?_, ?_⟩
  · intro a bp lo hi hlo hhi
    have hraw : a * ((bp : ℚ) / 10000) = a * (bp : ℚ) / 10000 := by ring
    simp only [service_fee_clamped, serviceFeeSpec, hraw]
    rcases eq_or_lt_of_le hlo with hlo0 | hlo0 <;> rcases eq_or_lt_of_le hhi with hhi0 | hhi0
    · simp [← hlo0, ← hhi0]
    · simp [← hlo0, hhi0.ne', hhi0, min_def]
      split_ifs <;> first | rfl | linarith
    · simp [← hhi0, hlo0.ne', hlo0, max_def]
      split_ifs <;> first | rfl | linarith
    · simp [hlo0.ne', hhi0.ne', hlo0, hhi0, max_def, min_def]
      split_ifs <;> first | rfl | linarith
  · intro a bp lo hi hlo hhi hlohi
    simp only [service_fee_clamped]
    constructor <;> split_ifs <;> simp_all <;> linarith
  · intro a b bp lo hi hbp hab
    have hpct : (0 : ℚ) ≤ (bp : ℚ) / 10000 := by
      apply div_nonneg _ (by norm_num)
      exact_mod_cast hbp
    have hcalc : a * ((bp : ℚ) / 10000) ≤ b * ((bp : ℚ) / 10000) :=
      mul_le_mul_of_nonneg_right hab hpct
    simp only [service_fee_clamped]
    split_ifs <;> simp_all <;> linarith

/-- Witness for C6 at concrete inputs: amount 2, 150 bp, bounds [1, 10] gives a
fee clamped up to the minimum bound 1, inside the bounds, and monotonicity at
amounts 2 ≤ 3. -/
theorem service_fee_clamp_bounds_monotone_witness :
    service_fee_clamped 2 150 1 10 = serviceFeeSpec 2 150 1 10
    ∧ (1 ≤ service_fee_clamped 2 150 1 10 ∧ service_fee_clamped 2 150 1 10 ≤ 10)
    ∧ service_fee_clamped 2 150 1 10 ≤ service_fee_clamped 3 150 1 10 := by
  refine ⟨?_, ?_, ?_⟩
  · exact service_fee_clamp_bounds_monotone.1 2 150 1 10 (by norm_num) (by norm_num)
  · exact service_fee_clamp_bounds_monotone.2.1 2 150 1 10 (by norm_num) (by norm_num) (by norm_num)
  · exact service_fee_clamp_bounds_monotone.2.2 2 3 150 1 10 (by norm_num) (by norm_num)

/-- Embedding of `ensure_party` from `src/app.py` lines 134-148.  Returns whether the caller
is authorized as a deal party, together with the (possibly updated) deal row:
buyer or already-bound seller pass by exact id; otherwise, when the seller id is
still the 0 sentinel and the stored tag is non-empty, a caller whose stripped
handle is non-empty and matches the tag case-insensitively (with an "@" prefix)
is bound as the seller.  The binding write (`sess.commit()`) is reflected in the
returned deal. -/
def ensure_party (uid : Nat) (username : Option String) (d : Deal) : Bool × Deal :=
  if uid = d.buyer_id ∨ uid = d.seller_id then (true, d)
  else if d.seller_id = 0 ∧ d.seller_username.getD "" ≠ "" then
    let uname := strStrip (username.getD "")
    if uname ≠ "" ∧ strLower ("@" ++ uname) = strLower (d.seller_username.getD "") then
      (true, {d with seller_id := uid})
    else (false, d)
  else (false, d)

/-- Embedding of `maybe_autofinalise` from `src/app.py` lines 240-251: if the deal is FUNDED,
its auto-finalise deadline is set and has passed, and no OPEN dispute exists for
the deal, mark it RELEASED and report `true`; otherwise leave it unchanged and
report `false`.  The `disputes` list stands for the SQL query
`SELECT 1 FROM disputes WHERE deal_id=:id AND status='OPEN'`. -/
def hasOpenDispute (disputes : List Dispute) (deal_id : Nat) : Bool :=
  disputes.any (fun x => x.deal_id == deal_id && x.status == "OPEN")

def maybe_autofinalise (now : Nat) (disputes : List Dispute) (d : Deal) : Deal × Bool :=
  match d.auto_finalise_at with
  | none => (d, false)
  | some t =>
    if d.status = "FUNDED" ∧ t ≤ now then
      if hasOpenDispute disputes d.id then (d, false)
      else ({d with status := "RELEASED", release_txid := none}, true)
    else (d, false)

/-- Modelled from the spec: `MarkFunded(deal, confirmations)` (§4.1) has no
implementation under `src/` — only the comment placeholder "Admin: mark deal as
funded (simulate wallet webhook)" at `src/app.py` line 493 marks where the
wallet/webhook collaborator would call in.  Per the spec it records the
confirmation count and, once `confirmations ≥ required` with the deal in
AWAIT_FUNDS, transitions to FUNDED, sets the funded timestamp, and sets the
auto-finalise deadline to the funded timestamp plus the configured grace
window. -/
def markFunded (now grace : Nat) (confirmations : Nat) (d : Deal) : Deal :=
  if d.status = "AWAIT_FUNDS" ∧ d.required_confs ≤ confirmations then
    {d with status := "FUNDED", confirmations := confirmations,
            funded_at := some now, auto_finalise_at := some (now + grace)}
  else {d with confirmations := confirmations}

/-- C9: party binding.  (i) While the seller is unbound (0 sentinel) and the
deal carries a non-empty seller tag, a caller who is not the buyer (and not the
sentinel id itself) whose stripped handle is non-empty and matches the tag
case-insensitively is authorized and bound as the seller.  (ii) Once the seller
id is bound (non-zero), `ensure_party` never changes the deal and authorizes
exactly the buyer or the bound seller — a different user presenting the same
matching handle is rejected. -/
theorem ensure_party_binding_and_permanence :
    (∀ (uid : Nat) (username : Option String) (d : Deal) (tag : String),
      d.seller_id = 0 → uid ≠ d.buyer_id → uid ≠ 0 →
      d.seller_username = some tag → tag ≠ "" →
      strStrip (username.getD "") ≠ "" →
      strLower ("@" ++ strStrip (username.getD "")) = strLower tag →
      ensure_party uid username d = (true, {d with seller_id := uid}))
    ∧ (∀ (uid : Nat) (username : Option String) (d : Deal),
      d.seller_id ≠ 0 →
      (ensure_party uid username d).2 = d
      ∧ ((ensure_party uid username d).1 = true ↔ (uid = d.buyer_id ∨ uid = d.seller_id))) := by
  constructor
  · intro uid username d tag hs hb h0 htag htagne huname hmatch
    have hnot : ¬ (uid = d.buyer_id ∨ uid = d.seller_id) := by
      rw [hs]
      rintro (h | h)
      · exact hb h
      · exact h0 h
    have hgetd : d.seller_username.getD "" = tag := by rw [htag]; rfl
    simp only [ensure_party]
    rw [if_neg hnot, if_pos ⟨hs, by rw [hgetd]; exact htagne⟩,
      if_pos ⟨huname, by rw [hgetd]; exact hmatch⟩]
  · intro uid username d hs
    by_cases hparty : uid = d.buyer_id ∨ uid = d.seller_id
    · simp [ensure_party, if_pos hparty, hparty]
    · have hguard : ¬ (d.seller_id = 0 ∧ d.seller_username.getD "" ≠ "") := by
        rintro ⟨h, -⟩
        exact hs h
      simp [ensure_party, if_neg hparty, if_neg hguard, hparty]

/-- A concrete deal row used as a template by the witnesses below. -/
def baseDeal : Deal :=
  { id := 1, buyer_id := 100, seller_id := 200, seller_username := some "@Bob",
    asset := "BTC", amount := 1, fee_bp := 150, fee_min_cad_cents := 300,
    fee_max_cad_cents := 15000, status := "FUNDED", pay_address := some "bc1qescrow00000001xyz",
    confirmations := 1, required_confs := 1, hold_txid := none, release_txid := none,
    funded_at := some 1000, auto_finalise_at := some 2000,
    seller_payout_address := some "bc1qseller", buyer_refund_address := none }

/-- Witness for C9: concrete deal with unbound seller and tag "@Bob"; caller 42
with handle "bob" gets bound; afterwards caller 77 with the same handle is
rejected and the deal is unchanged. -/
theorem ensure_party_binding_and_permanence_witness :
    (ensure_party 42 (some "bob")
      {baseDeal with seller_id := 0, status := "PENDING_ACCEPT"}).2.seller_id = 42
    ∧ (ensure_party 77 (some "bob") {baseDeal with seller_id := 42}).1 = false := by
  constructor
  · rw [ensure_party_binding_and_permanence.1 42 (some "bob") _ "@Bob"
      rfl (by decide) (by decide) rfl (by decide) (by decide) (by decide)]
  · have h := (ensure_party_binding_and_permanence.2 77 (some "bob")
      {baseDeal with seller_id := 42} (by decide)).2
    rcases Bool.eq_false_or_eq_true (ensure_party 77 (some "bob")
      {baseDeal with seller_id := 42}).1 with hb | hb
    · exact absurd (h.mp hb) (by decide)
    · exact hb

/-- C3: the lazy auto-finalise check performed on every status read
(`status_cmd` calls `maybe_autofinalise`, `src/app.py` lines 459-490 and
240-251) transitions the deal to RELEASED exactly when the deal is FUNDED, its
auto-finalise deadline is set and has passed, and no OPEN dispute exists for
the deal; when it does not fire the deal is unchanged, and in particular it
never fires while an OPEN dispute exists. -/
theorem maybe_autofinalise_release_iff :
    ∀ (now : Nat) (disputes : List Dispute) (d : Deal),
      ((maybe_autofinalise now disputes d).2 = true ↔
        (d.status = "FUNDED" ∧ (∃ t, d.auto_finalise_at = some t ∧ t ≤ now)
          ∧ hasOpenDispute disputes d.id = false))
      ∧ ((maybe_autofinalise now disputes d).2 = true →
          (maybe_autofinalise now disputes d).1.status = "RELEASED")
      ∧ ((maybe_autofinalise now disputes d).2 = false →
          (maybe_autofinalise now disputes d).1 = d)
      ∧ (hasOpenDispute disputes d.id = true → (maybe_autofinalise now disputes d).1 = d) := by
  intro now disputes d
  cases haf : d.auto_finalise_at with
  | none => simp [maybe_autofinalise, haf]
  | some t =>
    by_cases h2 : hasOpenDispute disputes d.id = true <;>
      by_cases hs : d.status = "FUNDED" <;>
      by_cases ht : t ≤ now <;>
      simp_all [maybe_autofinalise] <;>
      simp_all [Nat.not_le.mpr ht]

/-- Witness for C3: the base deal is FUNDED with deadline 2000 and no dispute
is open, so a status read at time 5000 auto-finalises it to RELEASED. -/
theorem maybe_autofinalise_release_iff_witness :
    (maybe_autofinalise 5000 [] baseDeal).2 = true
    ∧ (maybe_autofinalise 5000 [] baseDeal).1.status = "RELEASED" := by
  have h := maybe_autofinalise_release_iff 5000 [] baseDeal
  have hfired := h.1.mpr ⟨rfl, ⟨2000, rfl, by decide⟩, rfl⟩
  exact ⟨hfired, h.2.1 hfired⟩

/-- C4: `MarkFunded` (spec-modelled, see `markFunded`) on an AWAIT_FUNDS deal
with enough confirmations transitions it to FUNDED, sets the funded timestamp,
and sets the auto-finalise deadline to the funded timestamp plus the grace
window. -/
theorem markFunded_transitions :
    ∀ (now grace confs : Nat) (d : Deal),
      d.status = "AWAIT_FUNDS" → d.required_confs ≤ confs →
      (markFunded now grace confs d).status = "FUNDED"
      ∧ (markFunded now grace confs d).funded_at = some now
      ∧ (markFunded now grace confs d).auto_finalise_at = some (now + grace) := by
  intro now grace confs d hs hc
  simp [markFunded, hs, hc]

/-- Witness for C4: an AWAIT_FUNDS deal requiring 1 confirmation, funded at
time 1000 with grace 3600 and 1 confirmation, becomes FUNDED with deadline
4600. -/
theorem markFunded_transitions_witness :
    (markFunded 1000 3600 1 {baseDeal with status := "AWAIT_FUNDS"}).status = "FUNDED"
    ∧ (markFunded 1000 3600 1 {baseDeal with status := "AWAIT_FUNDS"}).funded_at = some 1000
    ∧ (markFunded 1000 3600 1 {baseDeal with status := "AWAIT_FUNDS"}).auto_finalise_at
        = some 4600 :=
  markFunded_transitions 1000 3600 1 _ rfl (by decide)

/-- Embedding of the `/finalise` handler from `src/app.py` lines 543-582 (checks in source
order: deal must be FUNDED, caller must be the buyer, the seller payout address
must be set, and the computed payout `amount - service_fee - network_fee` must
be positive; the simulated network fee is the constant 0).  On success the deal
becomes RELEASED and the computed service fee and seller payout are reported. -/
def finalise_cmd (caller : Nat) (d : Deal) : OpResult (Deal × ℚ × ℚ) :=
  if d.status ≠ "FUNDED" then .err .InvalidState
  else if caller ≠ d.buyer_id then .err .Forbidden
  else
    match d.seller_payout_address with
    | none => .err .MissingPayoutAddress
    | some _ =>
      let amt := d.amount
      let service_fee := compute_service_fee_asset_units d.asset amt d
      let network_fee : ℚ := 0
      let payout_to_seller := amt - service_fee - network_fee
      if payout_to_seller ≤ 0 then .err .NonPositivePayout
      else .ok ({d with status := "RELEASED", release_txid := none}, service_fee, payout_to_seller)

/-- The deal of the spec's finalise scenario (§8 item 4): amount 0.01 BTC,
fee 150 basis points, zero effective min/max bounds (the dev stub maps the CAD
bounds to 0 asset units). -/
def finaliseScenarioDeal : Deal := {baseDeal with amount := 1/100}

/-- C5: `Finalise` succeeds exactly under the source's preconditions — buyer
caller, FUNDED status, seller payout address set, computed service fee strictly
below the amount — and then releases the deal with payout `amount - fee`; it
fails `MissingPayoutAddress` when the address is unset and `NonPositivePayout`
when the fee reaches the amount; on the spec's concrete scenario (amount 0.01,
150 bp, free bounds) the fee is 0.00015 and the payout 0.00985. -/
theorem finalise_releases_with_fee :
    (∀ (caller : Nat) (d : Deal) (d1 : Deal) (fee payout : ℚ),
      finalise_cmd caller d = .ok (d1, fee, payout) →
      caller = d.buyer_id ∧ d.status = "FUNDED" ∧ d.seller_payout_address ≠ none
      ∧ fee = compute_service_fee_asset_units d.asset d.amount d ∧ fee < d.amount
      ∧ payout = d.amount - fee ∧ d1.status = "RELEASED")
    ∧ (∀ (caller : Nat) (d : Deal),
      d.status = "FUNDED" → caller = d.buyer_id → d.seller_payout_address = none →
      finalise_cmd caller d = .err .MissingPayoutAddress)
    ∧ (∀ (caller : Nat) (d : Deal),
      d.status = "FUNDED" → caller = d.buyer_id → d.seller_payout_address ≠ none →
      d.amount ≤ compute_service_fee_asset_units d.asset d.amount d →
      finalise_cmd caller d = .err .NonPositivePayout)
    ∧ finalise_cmd 100 finaliseScenarioDeal
        = .ok ({finaliseScenarioDeal with status := "RELEASED", release_txid := none},
               3/20000, 197/20000) := by
  refine ⟨?_, ?_, ?_, ?_⟩
  · intro caller d d1 fee payout h
    simp only [finalise_cmd] at h
    by_cases h1 : d.status ≠ "FUNDED"
    · rw [if_pos h1] at h
      exact absurd h (by simp)
    rw [if_neg h1] at h
    by_cases h2 : caller ≠ d.buyer_id
    · rw [if_pos h2] at h
      exact absurd h (by simp)
    rw [if_neg h2] at h
    rw [not_ne_iff] at h1 h2
    cases hpa : d.seller_payout_address with
    | none =>
      rw [hpa] at h
      exact absurd h (by simp)
    | some a =>
      rw [hpa] at h
      dsimp only at h
      by_cases h3 : d.amount - compute_service_fee_asset_units d.asset d.amount d - 0 ≤ 0
      · rw [if_pos h3] at h
        exact absurd h (by simp)
      · rw [if_neg h3] at h
        simp only [OpResult.ok.injEq, Prod.mk.injEq] at h
        obtain ⟨hd1, hfee, hpay⟩ := h
        subst hd1
        subst hfee
        subst hpay
        exact ⟨h2, h1, by simp [hpa], rfl, by linarith [not_le.mp h3], by ring, rfl⟩
  · intro caller d hs hc hpa
    simp [finalise_cmd, hs, hc, hpa]
  · intro caller d hs hc hpa hfee
    cases hpa2 : d.seller_payout_address with
    | none => exact absurd hpa2 hpa
    | some a =>
      simp only [finalise_cmd, hs, hc, hpa2, ne_eq, eq_self_iff_true, not_true_eq_false,
        if_false]
      rw [if_pos (by linarith)]
  · have hfee : compute_service_fee_asset_units finaliseScenarioDeal.asset
        finaliseScenarioDeal.amount finaliseScenarioDeal = 3/20000 := by
      simp only [compute_service_fee_asset_units, service_fee_clamped,
        cad_to_asset_units_stub]
      norm_num [finaliseScenarioDeal, baseDeal]
    have hst : finaliseScenarioDeal.status = "FUNDED" := rfl
    have hb : finaliseScenarioDeal.buyer_id = 100 := rfl
    have hpa : finaliseScenarioDeal.seller_payout_address = some "bc1qseller" := rfl
    have hamt : finaliseScenarioDeal.amount = 1/100 := rfl
    simp only [finalise_cmd, hst, hb, hpa, ne_eq, eq_self_iff_true, not_true_eq_false,
      if_false]
    rw [hfee, hamt]
    rw [if_neg (by norm_num)]
    simp only [OpResult.ok.injEq, Prod.mk.injEq]
    norm_num

/-- Witness for C5: on the scenario deal with the payout address cleared,
finalise by the buyer fails with `MissingPayoutAddress`. -/
theorem finalise_releases_with_fee_witness :
    finalise_cmd 100 {finaliseScenarioDeal with seller_payout_address := none}
      = .err .MissingPayoutAddress :=
  finalise_releases_with_fee.2.1 100 _ rfl rfl rfl

/-- Modelled from the spec: `is_admin` is called by the `/cancel` handler
(`src/app.py` line 600) but no definition of it exists under `src/`; per the
spec (§4.1 "buyer or admin only") an admin is a caller whose id is in the
configured admin id set (`ADMIN_IDS`). -/
def is_admin (admin_ids : List Nat) (uid : Nat) : Bool := admin_ids.contains uid

/-- Embedding of the `/cancel` handler from `src/app.py` lines 584-605 (checks in source order:
deal must still be unfunded — AWAIT_FUNDS or the placeholder CREATED — and the
caller must be the buyer or an admin); transitions the deal to CANCELLED. -/
def cancel_cmd (admin_ids : List Nat) (caller : Nat) (d : Deal) : OpResult Deal :=
  if d.status ≠ "AWAIT_FUNDS" ∧ d.status ≠ "CREATED" then .err .InvalidState
  else if caller ≠ d.buyer_id ∧ ¬ is_admin admin_ids caller then .err .Forbidden
  else .ok {d with status := "CANCELLED"}

/-- C10: `CancelUnfunded` succeeds — transitioning the deal to CANCELLED —
exactly when the status is AWAIT_FUNDS or CREATED and the caller is the buyer
or an admin; a wrong status yields `InvalidState` (checked first in the
source), and a non-buyer non-admin caller on an unfunded deal yields
`Forbidden`.  Failures return no updated deal: the row is unchanged. -/
theorem cancel_unfunded_guards :
    (∀ (admin_ids : List Nat) (caller : Nat) (d : Deal),
      (d.status = "AWAIT_FUNDS" ∨ d.status = "CREATED") →
      (caller = d.buyer_id ∨ is_admin admin_ids caller = true) →
      cancel_cmd admin_ids caller d = .ok {d with status := "CANCELLED"})
    ∧ (∀ (admin_ids : List Nat) (caller : Nat) (d : Deal),
      ¬ (d.status = "AWAIT_FUNDS" ∨ d.status = "CREATED") →
      cancel_cmd admin_ids caller d = .err .InvalidState)
    ∧ (∀ (admin_ids : List Nat) (caller : Nat) (d : Deal),
      (d.status = "AWAIT_FUNDS" ∨ d.status = "CREATED") →
      caller ≠ d.buyer_id → is_admin admin_ids caller = false →
      cancel_cmd admin_ids caller d = .err .Forbidden)
    ∧ (∀ (admin_ids : List Nat) (caller : Nat) (d : Deal) (d1 : Deal),
      cancel_cmd admin_ids caller d = .ok d1 →
      (d.status = "AWAIT_FUNDS" ∨ d.status = "CREATED")
      ∧ (caller = d.buyer_id ∨ is_admin admin_ids caller = true)
      ∧ d1 = {d with status := "CANCELLED"}) := by
  refine ⟨?_, ?_, ?_, ?_⟩
  · intro admin_ids caller d hs hc
    have h1 : ¬ (d.status ≠ "AWAIT_FUNDS" ∧ d.status ≠ "CREATED") := by tauto
    have h2 : ¬ (caller ≠ d.buyer_id ∧ ¬ is_admin admin_ids caller) := by
      rcases hc with hc | hc
      · tauto
      · intro hcon
        exact hcon.2 hc
    simp only [cancel_cmd, if_neg h1, if_neg h2]
  · intro admin_ids caller d hs
    have h1 : d.status ≠ "AWAIT_FUNDS" ∧ d.status ≠ "CREATED" := by tauto
    simp only [cancel_cmd, if_pos h1]
  · intro admin_ids caller d hs hc ha
    have h1 : ¬ (d.status ≠ "AWAIT_FUNDS" ∧ d.status ≠ "CREATED") := by tauto
    have h2 : caller ≠ d.buyer_id ∧ ¬ is_admin admin_ids caller := by
      refine ⟨hc, ?_⟩
      rw [ha]
      exact Bool.false_ne_true
    simp only [cancel_cmd, if_neg h1, if_pos h2]
  · intro admin_ids caller d d1 h
    simp only [cancel_cmd] at h
    by_cases h1 : d.status ≠ "AWAIT_FUNDS" ∧ d.status ≠ "CREATED"
    · rw [if_pos h1] at h
      exact absurd h (by simp)
    rw [if_neg h1] at h
    by_cases h2 : caller ≠ d.buyer_id ∧ ¬ is_admin admin_ids caller
    · rw [if_pos h2] at h
      exact absurd h (by simp)
    rw [if_neg h2] at h
    simp only [OpResult.ok.injEq] at h
    refine ⟨by tauto, ?_, h.symm⟩
    rw [not_and_or, not_ne_iff, not_not] at h2
    rcases h2 with h2 | h2
    · exact Or.inl h2
    · exact Or.inr h2

/-- Witness for C10: admin 555 (not the buyer) cancels an AWAIT_FUNDS deal. -/
theorem cancel_unfunded_guards_witness :
    cancel_cmd [555] 555 {baseDeal with status := "AWAIT_FUNDS"}
      = .ok {baseDeal with status := "CANCELLED"} :=
  cancel_unfunded_guards.1 [555] 555 {baseDeal with status := "AWAIT_FUNDS"}
    (Or.inl rfl) (Or.inr (by decide))

/-- The admin panel's dispute lookup in `deal_resolve` (`src/admin_server.py`
line 414) selects the first dispute of the deal with status OPEN and, if one
exists, marks it RESOLVED with the given loser recorded (lines 420-422,
430-432, 451-453).  Embedded as: update the first OPEN dispute of the deal in
the list, leave everything else alone. -/
def resolveFirstOpen : List Dispute → Nat → Nat → List Dispute
  | [], _, _ => []
  | x :: rest, did, loser =>
    if x.deal_id = did ∧ x.status = "OPEN" then
      {x with status := "RESOLVED", loser_id := some loser} :: rest
    else x :: resolveFirstOpen rest did loser

/-- Embedding of `POST /deal/.../resolve` from `src/admin_server.py` lines 396-457.
The deal must be FUNDED or DISPUTED.  `release` sets the deal RELEASED with the
buyer as loser; `refund` sets it CANCELLED with the seller as loser; `split`
requires a parsed percentage strictly between 0 and 100 (the `split_pct` field
is `none` when absent or unparseable, mirroring the `decimal.Decimal` parse
failure path), computes `seller_share = amount * (pct/100)` and
`buyer_share = amount - seller_share`, sets the deal RELEASED and picks the
buyer as loser when the seller share is larger, otherwise the seller (ties go
to the seller).  In every action an OPEN dispute of the deal, if present, is
marked RESOLVED with the loser recorded.  (Line 444's transient assignment is
immediately overwritten by line 445; only `"RELEASED"` is ever persisted.) -/
def deal_resolve (action : String) (split_pct : Option ℚ) (d : Deal)
    (disputes : List Dispute) : OpResult (Deal × List Dispute) :=
  if d.status ≠ "FUNDED" ∧ d.status ≠ "DISPUTED" then .err .InvalidState
  else
    let amt := d.amount
    if action = "release" then
      .ok ({d with status := "RELEASED", release_txid := some ("admin-panel-release-" ++ toString d.id)},
           resolveFirstOpen disputes d.id d.buyer_id)
    else if action = "refund" then
      .ok ({d with status := "CANCELLED", release_txid := some ("admin-panel-refund-" ++ toString d.id)},
           resolveFirstOpen disputes d.id d.seller_id)
    else if action = "split" then
      match split_pct with
      | none => .err .InvalidSplit
      | some sp =>
        if sp ≤ 0 ∨ 100 ≤ sp then .err .InvalidSplit
        else
          let seller_share := amt * (sp / 100)
          let buyer_share := amt - seller_share
          let loser_id := if buyer_share < seller_share then d.buyer_id else d.seller_id
          .ok ({d with status := "RELEASED", release_txid := some ("admin-panel-split-" ++ toString d.id)},
               resolveFirstOpen disputes d.id loser_id)
    else .err .UnknownAction

/-- C7: admin split resolution.  On a FUNDED or DISPUTED deal: a missing or
unparseable percentage fails `InvalidSplit`, as does any percentage outside the
open interval (0, 100); a valid percentage releases the deal, gives the seller
`amount * pct/100`, the buyer the remainder, and records as loser the side with
the smaller share (ties to the seller: the buyer loses only when the buyer
share is strictly smaller), resolving the deal's OPEN dispute with that
loser. -/
theorem resolve_split_shares_and_loser :
    (∀ (d : Deal) (ds : List Dispute),
      (d.status = "FUNDED" ∨ d.status = "DISPUTED") →
      deal_resolve "split" none d ds = .err .InvalidSplit)
    ∧ (∀ (d : Deal) (ds : List Dispute) (p : ℚ),
      (d.status = "FUNDED" ∨ d.status = "DISPUTED") →
      (p ≤ 0 ∨ 100 ≤ p) →
      deal_resolve "split" (some p) d ds = .err .InvalidSplit)
    ∧ (∀ (d : Deal) (disp : Dispute) (p : ℚ),
      (d.status = "FUNDED" ∨ d.status = "DISPUTED") →
      0 < p → p < 100 →
      disp.deal_id = d.id → disp.status = "OPEN" →
      deal_resolve "split" (some p) d [disp]
        = .ok ({d with status := "RELEASED", release_txid := some ("admin-panel-split-" ++ toString d.id)},
               [{disp with status := "RESOLVED", loser_id := some (if d.amount - d.amount * (p / 100) < d.amount * (p / 100) then d.buyer_id else d.seller_id)}])) := by
  have hstatus : ∀ d : Deal, (d.status = "FUNDED" ∨ d.status = "DISPUTED") →
      ¬ (d.status ≠ "FUNDED" ∧ d.status ≠ "DISPUTED") := by
    intro d hs
    tauto
  refine ⟨?_, ?_, ?_⟩
  · intro d ds hs
    simp only [deal_resolve, if_neg (hstatus d hs)]
    rw [if_neg (show ¬ ("split" = "release") by decide),
      if_neg (show ¬ ("split" = "refund") by decide)]
    simp only [if_true]
  · intro d ds p hs hp
    simp only [deal_resolve, if_neg (hstatus d hs)]
    rw [if_neg (show ¬ ("split" = "release") by decide),
      if_neg (show ¬ ("split" = "refund") by decide)]
    simp only [if_true]
    rw [if_pos hp]
  · intro d disp p hs hp0 hp100 hdid hopen
    simp only [deal_resolve, resolveFirstOpen, if_neg (hstatus d hs)]
    rw [if_neg (show ¬ ("split" = "release") by decide),
      if_neg (show ¬ ("split" = "refund") by decide)]
    simp only [if_true]
    rw [if_neg (not_or.mpr ⟨not_le.mpr hp0, not_le.mpr hp100⟩), if_pos ⟨hdid, hopen⟩]

/-- Witness for C7, the spec's split scenario (§8 item 5): amount 1, dispute
opened by the buyer (id 100), split 60% — seller share 0.60 > buyer share
0.40, so the buyer loses; deal RELEASED, dispute RESOLVED with loser 100. -/
theorem resolve_split_shares_and_loser_witness :
    deal_resolve "split" (some 60) {baseDeal with amount := 1}
      [{ id := 1, deal_id := 1, opener_id := 100, reason := "item not received",
         status := "OPEN", loser_id := none }]
      = .ok ({baseDeal with amount := 1, status := "RELEASED", release_txid := some ("admin-panel-split-" ++ toString (1 : Nat))},
             [{ id := 1, deal_id := 1, opener_id := 100, reason := "item not received", status := "RESOLVED", loser_id := some 100 }]) := by
  have h := resolve_split_shares_and_loser.2.2 {baseDeal with amount := 1}
    { id := 1, deal_id := 1, opener_id := 100, reason := "item not received",
      status := "OPEN", loser_id := none }
    60 (Or.inl rfl) (by norm_num) (by norm_num) rfl rfl
  norm_num [baseDeal] at h
  exact h

/-- C8: `Resolve` requires the deal to be FUNDED or DISPUTED; on a deal in a
terminal state (RELEASED or CANCELLED) every action fails with `InvalidState`
(returning no updated rows — the error is raised before any mutation), and in
particular a second `Resolve` right after any successful one fails with
`InvalidState`. -/
theorem resolve_invalid_state_on_terminal :
    (∀ (action : String) (sp : Option ℚ) (d : Deal) (ds : List Dispute),
      (d.status = "RELEASED" ∨ d.status = "CANCELLED") →
      deal_resolve action sp d ds = .err .InvalidState)
    ∧ (∀ (action action2 : String) (sp sp2 : Option ℚ) (d d1 : Deal)
        (ds ds1 : List Dispute),
      deal_resolve action sp d ds = .ok (d1, ds1) →
      deal_resolve action2 sp2 d1 ds1 = .err .InvalidState) := by
  refine ⟨?_, ?_⟩
  · intro action sp d ds hs
    have h1 : d.status ≠ "FUNDED" ∧ d.status ≠ "DISPUTED" := by
      rcases hs with hs | hs <;> rw [hs] <;> exact ⟨by decide, by decide⟩
    simp only [deal_resolve, if_pos h1]
  · intro action action2 sp sp2 d d1 ds ds1 h
    have hterm : d1.status = "RELEASED" ∨ d1.status = "CANCELLED" := by
      simp only [deal_resolve] at h
      by_cases h1 : d.status ≠ "FUNDED" ∧ d.status ≠ "DISPUTED"
      · rw [if_pos h1] at h
        exact absurd h (by simp)
      rw [if_neg h1] at h
      by_cases ha : action = "release"
      · rw [if_pos ha] at h
        simp only [OpResult.ok.injEq, Prod.mk.injEq] at h
        rw [← h.1]
        exact Or.inl rfl
      rw [if_neg ha] at h
      by_cases hb : action = "refund"
      · rw [if_pos hb] at h
        simp only [OpResult.ok.injEq, Prod.mk.injEq] at h
        rw [← h.1]
        exact Or.inr rfl
      rw [if_neg hb] at h
      by_cases hc : action = "split"
      · rw [if_pos hc] at h
        cases sp with
        | none => exact absurd h (by simp)
        | some p =>
          dsimp only at h
          by_cases hp : p ≤ 0 ∨ 100 ≤ p
          · rw [if_pos hp] at h
            exact absurd h (by simp)
          · rw [if_neg hp] at h
            simp only [OpResult.ok.injEq, Prod.mk.injEq] at h
            rw [← h.1]
            exact Or.inl rfl
      · rw [if_neg hc] at h
        exact absurd h (by simp)
    have h1 : d1.status ≠ "FUNDED" ∧ d1.status ≠ "DISPUTED" := by
      rcases hterm with hs | hs <;> rw [hs] <;> exact ⟨by decide, by decide⟩
    simp only [deal_resolve, if_pos h1]

/-- Witness for C8: `release` on an already-RELEASED deal fails with
`InvalidState`. -/
theorem resolve_invalid_state_on_terminal_witness :
    deal_resolve "release" none {baseDeal with status := "RELEASED"} []
      = .err .InvalidState :=
  resolve_invalid_state_on_terminal.1 "release" none
    {baseDeal with status := "RELEASED"} [] (Or.inl rfl)

/-- The persistent store as the dispute workflow sees it: the `deals` and
`disputes` tables, the in-memory `_pending_dispute_reason` map (`src/app.py`
line 609, user id ↦ deal id), and the next dispute primary key. -/
structure BotState where
  deals : List Deal
  disputes : List Dispute
  pending : List (Nat × Nat)
  next_dispute_id : Nat
deriving DecidableEq

/-- Embedding of `get_deal` (`src/app.py` line 128): primary-key lookup. -/
def getDeal (deals : List Deal) (deal_id : Nat) : Option Deal :=
  deals.find? (fun d => d.id == deal_id)

/-- Commit of an updated row: replace the row with the same primary key. -/
def putDeal (deals : List Deal) (d : Deal) : List Deal :=
  deals.map (fun x => if x.id == d.id then d else x)

/-- Embedding of the dict assignment `_pending_dispute_reason[uid] = deal_id`. -/
def setPending (pending : List (Nat × Nat)) (uid deal_id : Nat) : List (Nat × Nat) :=
  (uid, deal_id) :: pending.filter (fun e => !(e.1 == uid))

/-- Embedding of `_pending_dispute_reason.pop(uid)`: the entry, if any, and the
map without it. -/
def popPending (pending : List (Nat × Nat)) (uid : Nat) : Option Nat × List (Nat × Nat) :=
  match pending.find? (fun e => e.1 == uid) with
  | some e => (some e.2, pending.filter (fun x => !(x.1 == uid)))
  | none => (none, pending)

/-- Embedding of the `/dispute` handler from `src/app.py` lines 611-635: the caller must be a
deal party (`ensure_party`, whose seller binding commits even if a later check
fails) and the deal must be FUNDED; it stores the refund address and registers
a pending-reason slot for the caller.  No dispute row is created yet. -/
def dispute_cmd (uid : Nat) (username : Option String) (deal_id : Nat)
    (refund_addr : String) (st : BotState) : BotState × OpResult Unit :=
  match getDeal st.deals deal_id with
  | none => (st, .err .NotFound)
  | some d =>
    let r := ensure_party uid username d
    let d1 := r.2
    let st1 := {st with deals := putDeal st.deals d1}
    if r.1 = false then (st1, .err .Forbidden)
    else if d1.status ≠ "FUNDED" then (st1, .err .InvalidState)
    else
      let d2 := {d1 with buyer_refund_address := some refund_addr}
      ({st1 with deals := putDeal st1.deals d2,
                 pending := setPending st1.pending uid deal_id}, .ok ())

/-- The catch-all message handler from `src/app.py` lines 637-662: if the
sender has a pending-reason slot it is popped, the deal is looked up, the
sender must (still) be a party — and then a Dispute(OPEN) row is created and
the deal is set to DISPUTED.  The handler performs no status check on the
deal. -/
def collect_dispute_reason (uid : Nat) (username : Option String) (text : String)
    (st : BotState) : BotState × OpResult Unit :=
  match popPending st.pending uid with
  | (none, _) => (st, .ok ())
  | (some deal_id, pending1) =>
    match getDeal st.deals deal_id with
    | none => ({st with pending := pending1}, .err .NotFound)
    | some d =>
      let r := ensure_party uid username d
      let d1 := r.2
      if r.1 = false then
        ({st with deals := putDeal st.deals d1, pending := pending1}, .err .Forbidden)
      else
        let disp : Dispute := { id := st.next_dispute_id, deal_id := deal_id,
                                opener_id := uid, reason := text, status := "OPEN",
                                loser_id := none }
        let d2 := {d1 with status := "DISPUTED"}
        ({ deals := putDeal st.deals d2, disputes := st.disputes ++ [disp],
           pending := pending1, next_dispute_id := st.next_dispute_id + 1 }, .ok ())

/-- The `/finalise` handler applied through the store: look the deal up by id,
run `finalise_cmd`, and commit the released row on success. -/
def finalise_bot (caller : Nat) (deal_id : Nat) (st : BotState) :
    BotState × OpResult Unit :=
  match getDeal st.deals deal_id with
  | none => (st, .err .NotFound)
  | some d =>
    match finalise_cmd caller d with
    | .err e => (st, .err e)
    | .ok (d1, _, _) => ({st with deals := putDeal st.deals d1}, .ok ())

/-- C1 trace: the buyer's deal row after `/dispute` stored the refund
address (still FUNDED). -/
def c1_deal1 : Deal := {baseDeal with buyer_refund_address := some "bc1qrefund"}

/-- C1 trace: the same row after the buyer ran `/finalise` (RELEASED,
terminal). -/
def c1_deal2 : Deal := {c1_deal1 with status := "RELEASED", release_txid := none}

/-- C1 trace: the same row after the pending reason message was collected —
the terminal deal was mutated back to DISPUTED. -/
def c1_deal3 : Deal := {c1_deal1 with status := "DISPUTED", release_txid := none}

/-- C1 trace, step 0: one FUNDED deal (buyer 100, seller 200), no disputes, no
pending slots. -/
def c1_st0 : BotState :=
  { deals := [baseDeal], disputes := [], pending := [], next_dispute_id := 1 }

/-- C1 trace, step 1: after the buyer's `/dispute` — pending-reason slot
registered, deal still FUNDED. -/
def c1_st1 : BotState :=
  { deals := [c1_deal1], disputes := [], pending := [(100, 1)], next_dispute_id := 1 }

/-- C1 trace, step 2: after the buyer's `/finalise` — deal RELEASED
(terminal), pending slot still live. -/
def c1_st2 : BotState :=
  { deals := [c1_deal2], disputes := [], pending := [(100, 1)], next_dispute_id := 1 }

/-- C1 trace, step 3: after the buyer's reason message — the RELEASED deal is
DISPUTED again and an OPEN dispute exists. -/
def c1_st3 : BotState :=
  { deals := [c1_deal3],
    disputes := [{ id := 1, deal_id := 1, opener_id := 100,
                   reason := "item not received", status := "OPEN", loser_id := none }],
    pending := [], next_dispute_id := 2 }

/-- C1: the terminal-state invariant fails on the code.  A buyer opens a
dispute (phase 1) on a FUNDED deal, finalises the deal (now RELEASED,
terminal), and then sends the pending reason message: `collect_dispute_reason`
performs no status check, so the RELEASED deal is mutated back to DISPUTED —
a transition out of a terminal state succeeds. -/
theorem collect_reason_escapes_terminal_state :
    dispute_cmd 100 (some "alice") 1 "bc1qrefund" c1_st0 = (c1_st1, .ok ())
    ∧ finalise_bot 100 1 c1_st1 = (c1_st2, .ok ())
    ∧ (getDeal c1_st2.deals 1).map Deal.status = some "RELEASED"
    ∧ collect_dispute_reason 100 (some "alice") "item not received" c1_st2
        = (c1_st3, .ok ())
    ∧ (getDeal c1_st3.deals 1).map Deal.status = some "DISPUTED" := by
  refine ⟨rfl, ?_, rfl, rfl, rfl⟩
  have hd : getDeal c1_st1.deals 1 = some c1_deal1 := rfl
  have hfee : compute_service_fee_asset_units c1_deal1.asset c1_deal1.amount c1_deal1
      = 3/200 := by
    simp only [compute_service_fee_asset_units, service_fee_clamped,
      cad_to_asset_units_stub]
    norm_num [c1_deal1, baseDeal]
  have hf : finalise_cmd 100 c1_deal1 = .ok (c1_deal2, 3/200, 197/200) := by
    have hst : c1_deal1.status = "FUNDED" := rfl
    have hb : c1_deal1.buyer_id = 100 := rfl
    have hpa : c1_deal1.seller_payout_address = some "bc1qseller" := rfl
    have hamt : c1_deal1.amount = 1 := rfl
    simp only [finalise_cmd, hst, hb, hpa, ne_eq, eq_self_iff_true, not_true_eq_false,
      if_false]
    rw [hfee, hamt]
    rw [if_neg (by norm_num)]
    simp only [OpResult.ok.injEq, Prod.mk.injEq]
    norm_num
    rfl
  simp only [finalise_bot, hd, hf]
  rfl

/-- C2 trace, step 0: one FUNDED deal (buyer 100, bound seller 200), no
disputes, no pending slots. -/
def c2_st0 : BotState :=
  { deals := [baseDeal], disputes := [], pending := [], next_dispute_id := 1 }

/-- C2 trace, step 1: the buyer runs `/dispute` while the deal is FUNDED. -/
def c2_st1 : BotState := (dispute_cmd 100 (some "alice") 1 "bc1qbuyerrefund" c2_st0).1

/-- C2 trace, step 2: the seller also runs `/dispute`; the deal is still
FUNDED because phase 1 does not change the status, so this also succeeds. -/
def c2_st2 : BotState := (dispute_cmd 200 (some "bob") 1 "bc1qsellerrefund" c2_st1).1

/-- C2 trace, step 3: the buyer's reason message creates dispute #1 (OPEN) and
sets the deal DISPUTED. -/
def c2_st3 : BotState := (collect_dispute_reason 100 (some "alice") "not delivered" c2_st2).1

/-- C2 trace, step 4: the seller's reason message creates dispute #2 (OPEN) —
`collect_dispute_reason` checks neither the deal status nor the existence of
an OPEN dispute. -/
def c2_st4 : BotState := (collect_dispute_reason 200 (some "bob") "buyer is wrong" c2_st3).1

/-- C2: the at-most-one-OPEN-dispute invariant fails on the code, and no
`DuplicateDispute` guard exists.  Both parties register pending-reason slots
while the deal is FUNDED; both follow-up messages are then accepted, leaving
two OPEN disputes for the same deal. -/
theorem duplicate_open_disputes_reachable :
    (dispute_cmd 100 (some "alice") 1 "bc1qbuyerrefund" c2_st0).2 = .ok ()
    ∧ (dispute_cmd 200 (some "bob") 1 "bc1qsellerrefund" c2_st1).2 = .ok ()
    ∧ (collect_dispute_reason 100 (some "alice") "not delivered" c2_st2).2 = .ok ()
    ∧ (collect_dispute_reason 200 (some "bob") "buyer is wrong" c2_st3).2 = .ok ()
    ∧ (c2_st4.disputes.filter (fun x => x.deal_id == 1 && x.status == "OPEN")).length = 2 :=
  ⟨rfl, rfl, rfl, rfl, rfl⟩
